import Mathlib

/-!
# Verification of the multi-tier caching subsystem

Shallow embedding of the caching layer of the repository:

* `src/mastra/lib/cache-manager.ts` — primitive TTL cache (`CacheManager.get`,
  backed by a `node-cache` store);
* `src/mastra/lib/change-aware-cache.ts` — two-tier change-gated cache
  (`ChangeAwareCache.get`, probe tier + data tier);
* `src/mastra/lib/cache.ts` — collection "reload" cache and hash-verified
  per-key cache (`CacheManager.reload` / `checkForChanges` / `get` / `getAll`
  / `getWithHash` / `setWithHash`);
* `src/mastra/services/agent-manager.ts` — the per-entry guarded collection
  materialization loop (`loadData`);
* `src/mastra/services/mcp-change-detector.ts` — `hasMcpServersChanged`;
* the `ChangeAwareCache` option resolution and the concrete configurations
  constructed in `src/mastra/services/mcp-config.ts`,
  `src/mastra/services/agent-config.ts` and the agent bootstrap module.

The runtime is single-threaded and cooperative: code between two `await`
points runs atomically.  Every `await` of an external function is modelled
by an explicit oracle argument (`Except E _`): the value the awaited call
would return, or the exception it would throw.  Within one modelled
operation the observable interleaving points are exactly the `await`s of
the source, and for the reload path we expose the store contents visible
at each such suspension point.

Time is an explicit `Nat` parameter (the value `Date.now()` would return),
in the same unit as the TTLs handed to the store.

## The `node-cache` store

Both `CacheManager`s are built on the `node-cache` npm package
(`new NodeCache({ stdTTL, checkperiod, useClones: false })`).  We model its
interface contract: entries carry an absolute expiry instant (`0` = no
expiry, otherwise `now + ttl` at `set` time, `stdTTL` when `set` is called
without an explicit ttl); `get` returns only live entries; `del` removes a
key; `flushAll` empties the store; `keys` enumerates the stored keys
(expired-but-unswept entries included, exactly as `Object.keys` does in
`node-cache`).  The periodic sweep and the physical removal of an expired
entry at the moment a read touches it are not modelled: they only remove
entries that no `get` can return, so no modelled observation distinguishes
the two stores.
-/

/-- An entry of a `node-cache` store: a value plus its absolute expiry
instant (`expiresAt = 0` means the entry never expires, matching
`node-cache`'s `t === 0`). -/
structure NCEntry (V : Type) where
  value : V
  expiresAt : Nat
  deriving DecidableEq, Repr

/-- A `node-cache` store: an insertion-ordered association list of entries,
mirroring the underlying JS object. -/
def NC (V : Type) : Type := List (String × NCEntry V)

instance (V : Type) [DecidableEq V] : DecidableEq (NC V) :=
  inferInstanceAs (DecidableEq (List (String × NCEntry V)))

/-- Lookup in an association list (first match, as in a JS object/`Map`
whose keys are unique). -/
def alookup {V : Type} : List (String × V) → String → Option V
  | [], _ => none
  | (k', v) :: rest, k => if k = k' then some v else alookup rest k

/-- Insert-or-replace in an association list, keeping the position of an
existing key (JS object/`Map` assignment semantics). -/
def aset {V : Type} : List (String × V) → String → V → List (String × V)
  | [], k, v => [(k, v)]
  | (k', v') :: rest, k, v =>
      if k = k' then (k, v) :: rest else (k', v') :: aset rest k v

/-- Delete a key from an association list.  A JS object holds each key at
most once, so `delete obj[key]` and removing every occurrence coincide. -/
def adel {V : Type} (c : List (String × V)) (k : String) : List (String × V) :=
  c.filter (fun p => p.1 ≠ k)

theorem alookup_aset {V : Type} (c : List (String × V)) (k k' : String) (v : V) :
    alookup (aset c k v) k' = if k' = k then some v else alookup c k' := by
  induction c with
  | nil =>
      by_cases h : k' = k <;> simp [aset, alookup, h]
  | cons p rest ih =>
      obtain ⟨pk, pv⟩ := p
      by_cases hk : k = pk
      · subst hk
        by_cases h : k' = k <;> simp [aset, alookup, h]
      · by_cases h : k' = pk
        · subst h
          have hne : ¬ (k' = k) := fun hh => hk hh.symm
          simp [aset, hk, alookup, hne]
        · simp [aset, hk, alookup, h, ih]

theorem alookup_adel {V : Type} (c : List (String × V)) (k k' : String) :
    alookup (adel c k) k' = if k' = k then none else alookup c k' := by
  induction c with
  | nil => by_cases h : k' = k <;> simp [adel, alookup, h]
  | cons p rest ih =>
      obtain ⟨pk, pv⟩ := p
      simp only [adel, ne_eq, decide_not] at ih ⊢
      by_cases hpk : pk = k
      · subst hpk
        by_cases h : k' = pk
        · subst h
          simpa using ih
        · simp [List.filter_cons, alookup, h, ih]
      · by_cases h : k' = pk
        · subst h
          have hne : ¬ (k' = k) := hpk
          simp [List.filter_cons, hpk, alookup, hne]
        · simp [List.filter_cons, hpk, alookup, h, ih]

/-- Is a stored entry live at `now`?  `node-cache` treats an entry as
expired iff `t !== 0 && t < Date.now()`. -/
def ncLive {V : Type} (e : NCEntry V) (now : Nat) : Prop :=
  e.expiresAt = 0 ∨ now ≤ e.expiresAt

instance {V : Type} (e : NCEntry V) (now : Nat) : Decidable (ncLive e now) :=
  inferInstanceAs (Decidable (_ ∨ _))

/-- The empty store (`node-cache` after `flushAll`). -/
def ncEmpty {V : Type} : NC V := []

/-- `NodeCache#get`: return a live entry's value, otherwise `undefined`. -/
def ncGet {V : Type} (c : NC V) (k : String) (now : Nat) : Option V :=
  match alookup c k with
  | some e => if ncLive e now then some e.value else none
  | none => none

/-- `NodeCache#set` with the instance's `stdTTL` (in the same time unit as
`now`): the new entry expires at `now + ttl`, or never when `ttl = 0`. -/
def ncSet {V : Type} (c : NC V) (k : String) (v : V) (ttl now : Nat) : NC V :=
  aset c k ⟨v, if ttl = 0 then 0 else now + ttl⟩

/-- `NodeCache#del`. -/
def ncDel {V : Type} (c : NC V) (k : String) : NC V :=
  adel c k

/-- `NodeCache#keys`: every stored key, expired-but-unswept ones included. -/
def ncKeys {V : Type} (c : NC V) : List String :=
  c.map Prod.fst

theorem ncGet_ncSet_self {V : Type} (c : NC V) (k : String) (v : V)
    (ttl now now' : Nat) (hlive : ttl = 0 ∨ now' ≤ now + ttl) :
    ncGet (ncSet c k v ttl now) k now' = some v := by
  by_cases h0 : ttl = 0
  · simp [ncGet, ncSet, alookup_aset, ncLive, h0]
  · rcases hlive with h | h
    · exact absurd h h0
    · simp [ncGet, ncSet, alookup_aset, ncLive, h0, h]

theorem ncGet_ncSet_other {V : Type} (c : NC V) (k k' : String) (v : V)
    (ttl now now' : Nat) (hne : k' ≠ k) :
    ncGet (ncSet c k v ttl now) k' now' = ncGet c k' now' := by
  simp [ncGet, ncSet, alookup_aset, hne]

theorem ncGet_ncDel_self {V : Type} (c : NC V) (k : String) (now : Nat) :
    ncGet (ncDel c k) k now = none := by
  simp [ncGet, ncDel, alookup_adel]

/-!
## Primitive TTL cache — `CacheManager` of `src/mastra/lib/cache-manager.ts`

`get(key)` (lines 63–93): return a live cached entry; on a miss invoke the
supplied `dataFetcher` once, store its result with the configured ttl and
return it; if the fetcher throws, log and rethrow — nothing is stored.
The fetcher is an oracle argument `fetch : Except E T`: the outcome its
single invocation would have.  `fetcherCalls` counts how many times the
fetcher was invoked during the call.
-/

instance {E T : Type} [DecidableEq E] [DecidableEq T] :
    DecidableEq (Except E T) := fun a b =>
  match a, b with
  | .ok x, .ok y =>
      if h : x = y then .isTrue (by rw [h]) else
        .isFalse (fun hc => h (Except.ok.inj hc))
  | .ok _, .error _ => .isFalse (fun hc => Except.noConfusion hc)
  | .error _, .ok _ => .isFalse (fun hc => Except.noConfusion hc)
  | .error x, .error y =>
      if h : x = y then .isTrue (by rw [h]) else
        .isFalse (fun hc => h (Except.error.inj hc))

/-- Outcome of one `CacheManager.get` call of `cache-manager.ts`: the
returned (or thrown) result, the store afterwards, and how often the
`dataFetcher` ran. -/
structure CMGetResult (T E : Type) where
  result : Except E T
  cache : NC T
  fetcherCalls : Nat
  deriving DecidableEq

/-- `CacheManager.get` of `cache-manager.ts` (lines 63–93). -/
def cmGet {T E : Type} (ttl : Nat) (c : NC T) (key : String) (now : Nat)
    (fetch : Except E T) : CMGetResult T E :=
  match ncGet c key now with
  | some v => ⟨.ok v, c, 0⟩
  | none =>
      match fetch with
      | .ok d => ⟨.ok d, ncSet c key d ttl now, 1⟩
      | .error e => ⟨.error e, c, 1⟩

/-- C7. For the primitive TTL cache: for every key `k` with no
unexpired entry, if the loader throws during `get(k)`, the exception
propagates to the caller and the cache state is unchanged — no entry (and
no negative result) is stored for `k`. -/
theorem cmGet_loader_failure_propagates {T E : Type} (ttl : Nat) (c : NC T)
    (key : String) (now : Nat) (e : E)
    (hmiss : ncGet c key now = none) :
    cmGet ttl c key now (.error e) = ⟨.error e, c, 1⟩ := by
  simp [cmGet, hmiss]

/-- Witness for C7 at a concrete input: a store holding only an expired
entry for `"x"` (hence no unexpired entry), a throwing loader. -/
theorem cmGet_loader_failure_propagates_witness :
    ncGet [("x", (⟨3, 50⟩ : NCEntry Nat))] "x" 100 = none ∧
      cmGet 60 [("x", (⟨3, 50⟩ : NCEntry Nat))] "x" 100
        (.error "db down") = ⟨.error "db down", [("x", ⟨3, 50⟩)], 1⟩ :=
  ⟨by decide,
    cmGet_loader_failure_propagates 60 [("x", ⟨3, 50⟩)] "x" 100 "db down"
      (by decide)⟩

/-!
## Change-gated cache — `ChangeAwareCache` of `src/mastra/lib/change-aware-cache.ts`

Two `cache-manager.ts` caches per instance: `dataCache` (ttl
`dataCacheTtl`, fetcher = the supplied `dataFetcher`) and
`changeCheckCache` (ttl `checkInterval`, fetcher = run the supplied
`changeDetector`; when it reports a change, `dataCache.clear(key)` before
the result is stored).  `get(key)` (lines 93–99) awaits
`changeCheckCache.get(key)` and then returns `dataCache.get(key)`.

Oracles: `detect` is the outcome the single `changeDetector(key)` call
would have (consulted only when the probe tier misses), `fetch` the
outcome the single `dataFetcher(key)` call would have (consulted only when
the data tier misses).  The counters record how often the detector ran,
how often `dataCache.clear` ran, and how often the data fetcher ran.
-/

/-- The two stores of a `ChangeAwareCache`. -/
structure CACState (T : Type) where
  dataCache : NC T
  checkCache : NC Bool
  deriving DecidableEq

/-- Outcome of one `ChangeAwareCache.get` call. -/
structure CACGetResult (T E : Type) where
  result : Except E T
  state : CACState T
  detectorCalls : Nat
  evictions : Nat
  dataFetches : Nat
  deriving DecidableEq

/-- `ChangeAwareCache.get` (lines 93–99), with the probe-tier fetcher of
lines 61–88 inlined: a probe-tier hit returns the cached boolean and runs
nothing; a probe-tier miss runs the change detector — a thrown detector
error is logged and rethrown by `CacheManager.get` (nothing stored), a
returned `true` first evicts the data-tier key — and caches the boolean
for `checkInterval`; then the data tier is read. -/
def cacGet {T E : Type} (checkInterval dataCacheTtl : Nat) (st : CACState T)
    (key : String) (now : Nat) (detect : Except E Bool) (fetch : Except E T) :
    CACGetResult T E :=
  match ncGet st.checkCache key now with
  | some _ =>
      -- probe hit: the cached change-check result is returned as-is
      let d := cmGet dataCacheTtl st.dataCache key now fetch
      ⟨d.result, ⟨d.cache, st.checkCache⟩, 0, 0, d.fetcherCalls⟩
  | none =>
      match detect with
      | .error e => ⟨.error e, st, 1, 0, 0⟩
      | .ok changed =>
          let data1 := if changed then ncDel st.dataCache key else st.dataCache
          let check1 := ncSet st.checkCache key changed checkInterval now
          let d := cmGet dataCacheTtl data1 key now fetch
          ⟨d.result, ⟨d.cache, check1⟩, 1, if changed then 1 else 0,
            d.fetcherCalls⟩

/-!
## Change detector — `hasMcpServersChanged` of `src/mastra/services/mcp-change-detector.ts`

One step of `hasMcpServersChanged` (lines 17–59): fetch the current MCP
change info from the database; on a throw, log and return `false`
("assume no change on error"); on the first ever call record the info and
return `true`; afterwards compare hash and last-updated timestamp against
the recorded state, updating it when a change is seen.  `fetchInfo` is the
outcome the `getMcpChangeInfo()` call would have; the module-level
`lastKnownMcpState` is passed and returned explicitly.
-/

/-- `McpChangeInfo` of `mcp-change-detector.ts` (`lastUpdated` as epoch
milliseconds, i.e. `Date#getTime`). -/
structure McpChangeInfo where
  mcpServersHash : String
  lastUpdatedMs : Nat
  deriving DecidableEq

/-- One call of `hasMcpServersChanged`: returns the boolean handed to the
cache layer and the new `lastKnownMcpState`. -/
def hasMcpServersChanged {E : Type} (fetchInfo : Except E McpChangeInfo)
    (lastKnown : Option McpChangeInfo) : Bool × Option McpChangeInfo :=
  match fetchInfo with
  | .error _ => (false, lastKnown)
  | .ok current =>
      match lastKnown with
      | none => (true, some current)
      | some prev =>
          if current.mcpServersHash ≠ prev.mcpServersHash ∨
              current.lastUpdatedMs ≠ prev.lastUpdatedMs then
            (true, some current)
          else
            (false, some prev)

/-- C2. For every key `k` of a change-gated cache: if the change
detector for `k` is actually invoked during a probe check (the probe tier
missed) and returns `true`, then the immediately following data read for
`k` invokes the data fetcher exactly once, even when the data-tier entry
for `k` had not yet expired. -/
theorem cacGet_change_detected_single_refetch {T E : Type}
    (ci dt : Nat) (st : CACState T) (key : String) (now : Nat)
    (fetch : Except E T) (v : T)
    (hprobe : ncGet st.checkCache key now = none)
    (_hlive : ncGet st.dataCache key now = some v) :
    (cacGet ci dt st key now (.ok true) fetch).dataFetches = 1 ∧
    (cacGet ci dt st key now (.ok true) fetch).evictions = 1 ∧
    (cacGet ci dt st key now (.ok true) fetch).result = fetch := by
  cases fetch <;> simp [cacGet, hprobe, cmGet, ncGet_ncDel_self]

/-- Witness for C2: a live data entry for `"k"` (expires at 100, read at
50), an empty probe tier, a detector reporting a change. -/
theorem cacGet_change_detected_single_refetch_witness :
    ncGet ([] : NC Bool) "k" 50 = none ∧
    ncGet [("k", (⟨5, 100⟩ : NCEntry Nat))] "k" 50 = some 5 ∧
    ((cacGet 10 100 ⟨[("k", ⟨5, 100⟩)], []⟩ "k" 50 (.ok true)
        (.ok (7 : Nat) : Except String Nat)).dataFetches = 1 ∧
     (cacGet 10 100 ⟨[("k", ⟨5, 100⟩)], []⟩ "k" 50 (.ok true)
        (.ok 7 : Except String Nat)).evictions = 1 ∧
     (cacGet 10 100 ⟨[("k", ⟨5, 100⟩)], []⟩ "k" 50 (.ok true)
        (.ok 7 : Except String Nat)).result = .ok 7) :=
  ⟨by decide, by decide,
    cacGet_change_detected_single_refetch 10 100 ⟨[("k", ⟨5, 100⟩)], []⟩
      "k" 50 (.ok 7) 5 (by decide) (by decide)⟩

/-- C6, counterexample. The claim says: if the supplied change
detector throws during `get(k)` while a live data-tier entry for `k`
exists, `get(k)` still returns that cached value rather than raising.  At
this concrete input a live data entry for `"k"` exists (value 5, expires
at 100, read at 50), the probe tier is empty, the detector throws — and
`ChangeAwareCache.get` propagates the exception instead of returning the
cached 5: `CacheManager.get` of `cache-manager.ts` rethrows the fetcher's
error (line 91), and `ChangeAwareCache.get` awaits the probe tier
unguarded (line 95). -/
theorem cacGet_detector_throw_propagates_cex :
    ncGet [("k", (⟨5, 100⟩ : NCEntry Nat))] "k" 50 = some 5 ∧
    (cacGet 10 100 ⟨[("k", ⟨5, 100⟩)], []⟩ "k" 50 (.error "boom")
      (.ok (5 : Nat))).result = .error "boom" := by
  constructor <;> decide

/-- C6, amended. `ChangeAwareCache.get` propagates an exception thrown
by the supplied change detector.  However, the change detectors this
repository actually supplies catch their own failures and report "no
change": when `hasMcpServersChanged`'s database fetch throws, it returns
`false` and leaves its recorded state untouched, so `get(k)` with a live
data-tier entry for `k` returns the last cached value with no eviction and
no refetch. -/
theorem cacGet_repo_detector_failure_returns_cached {T E : Type}
    (ci dt : Nat) (st : CACState T) (key : String) (now : Nat) (e : E)
    (last : Option McpChangeInfo) (fetch : Except E T) (v : T)
    (hlive : ncGet st.dataCache key now = some v) :
    hasMcpServersChanged (.error e) last = (false, last) ∧
    (cacGet ci dt st key now (.ok (hasMcpServersChanged (.error e) last).1)
        fetch).result = .ok v ∧
    (cacGet ci dt st key now (.ok (hasMcpServersChanged (.error e) last).1)
        fetch).evictions = 0 ∧
    (cacGet ci dt st key now (.ok (hasMcpServersChanged (.error e) last).1)
        fetch).dataFetches = 0 := by
  refine ⟨rfl, ?_⟩
  rcases h : ncGet st.checkCache key now with _ | b <;>
    simp [cacGet, h, hasMcpServersChanged, cmGet, hlive]

/-- Witness for the amended C6: live data entry for `"k"`, empty probe
tier, the detector's database fetch throwing. -/
theorem cacGet_repo_detector_failure_returns_cached_witness :
    hasMcpServersChanged (.error "db down") (none : Option McpChangeInfo) =
      (false, none) ∧
    (cacGet 10 100 ⟨[("k", (⟨5, 100⟩ : NCEntry Nat))], []⟩ "k" 50
        (.ok (hasMcpServersChanged (.error "db down")
          (none : Option McpChangeInfo)).1)
        (.ok 9 : Except String Nat)).result = .ok 5 ∧
    (cacGet 10 100 ⟨[("k", (⟨5, 100⟩ : NCEntry Nat))], []⟩ "k" 50
        (.ok (hasMcpServersChanged (.error "db down")
          (none : Option McpChangeInfo)).1)
        (.ok 9 : Except String Nat)).evictions = 0 ∧
    (cacGet 10 100 ⟨[("k", (⟨5, 100⟩ : NCEntry Nat))], []⟩ "k" 50
        (.ok (hasMcpServersChanged (.error "db down")
          (none : Option McpChangeInfo)).1)
        (.ok 9 : Except String Nat)).dataFetches = 0 :=
  cacGet_repo_detector_failure_returns_cached 10 100 ⟨[("k", ⟨5, 100⟩)], []⟩
    "k" 50 "db down" none (.ok 9) 5 (by decide)

/-- C10. For every key `k` of a change-gated cache, the data-tier
entry is evicted only when the change detector actually runs (inside the
probe-tier loader): (1) while a probe result for `k` — `true` or `false` —
is still cached, `get(k)` invokes neither the detector nor an eviction;
(2) in any single `get` the number of data-cache evictions never exceeds
the number of detector invocations (each at most one); (3) after a `get`
at `t₁` in which the detector reported a change (evicting and refetching),
a second `get` at `t₂` within the probe window serves the refetched value
without running the detector, without evicting and without refetching. -/
theorem cacGet_eviction_only_with_detector {T E : Type} (ci dt : Nat) :
    (∀ (st : CACState T) (key : String) (now : Nat) (b : Bool)
        (detect : Except E Bool) (fetch : Except E T),
        ncGet st.checkCache key now = some b →
        (cacGet ci dt st key now detect fetch).detectorCalls = 0 ∧
        (cacGet ci dt st key now detect fetch).evictions = 0) ∧
    (∀ (st : CACState T) (key : String) (now : Nat)
        (detect : Except E Bool) (fetch : Except E T),
        (cacGet ci dt st key now detect fetch).evictions ≤
          (cacGet ci dt st key now detect fetch).detectorCalls ∧
        (cacGet ci dt st key now detect fetch).detectorCalls ≤ 1) ∧
    (∀ (st : CACState T) (key : String) (t1 t2 : Nat) (v : T)
        (detect2 : Except E Bool) (fetch2 : Except E T),
        ncGet st.checkCache key t1 = none → ci ≤ dt → t2 ≤ t1 + ci →
        (cacGet ci dt
            (cacGet ci dt st key t1 (.ok true : Except E Bool)
              (.ok v)).state
            key t2 detect2 fetch2).result = .ok v ∧
        (cacGet ci dt
            (cacGet ci dt st key t1 (.ok true : Except E Bool)
              (.ok v)).state
            key t2 detect2 fetch2).detectorCalls = 0 ∧
        (cacGet ci dt
            (cacGet ci dt st key t1 (.ok true : Except E Bool)
              (.ok v)).state
            key t2 detect2 fetch2).evictions = 0 ∧
        (cacGet ci dt
            (cacGet ci dt st key t1 (.ok true : Except E Bool)
              (.ok v)).state
            key t2 detect2 fetch2).dataFetches = 0) := by
  refine ⟨?_, ?_, ?_⟩
  · intro st key now b detect fetch hprobe
    simp [cacGet, hprobe]
  · intro st key now detect fetch
    rcases h : ncGet st.checkCache key now with _ | b
    · rcases detect with e | changed
      · simp [cacGet, h]
      · cases changed <;> simp [cacGet, h]
    · simp [cacGet, h]
  · intro st key t1 t2 v detect2 fetch2 hprobe hcidt ht2
    have hstate :
        (cacGet ci dt st key t1 (.ok true : Except E Bool) (.ok v)).state =
          ⟨ncSet (ncDel st.dataCache key) key v dt t1,
            ncSet st.checkCache key true ci t1⟩ := by
      simp [cacGet, hprobe, cmGet, ncGet_ncDel_self]
    rw [hstate]
    have hprobe2 :
        ncGet (ncSet st.checkCache key true ci t1) key t2 = some true :=
      ncGet_ncSet_self _ _ _ _ _ _ (by omega)
    have hdata2 :
        ncGet (ncSet (ncDel st.dataCache key) key v dt t1) key t2 = some v :=
      ncGet_ncSet_self _ _ _ _ _ _ (by omega)
    simp [cacGet, hprobe2, cmGet, hdata2]

/-- Witness for C10, exercising clause (3) at a concrete input: probe tier
empty at `t₁ = 0`, detector reports a change, refetch yields 9; a second
read at `t₂ = 5` (inside the 10-wide probe window) returns 9 with no
detector call, no eviction and no refetch. -/
theorem cacGet_eviction_only_with_detector_witness :
    (cacGet 10 100
        (cacGet 10 100 (⟨[("k", ⟨5, 100⟩)], []⟩ : CACState Nat) "k" 0
          (.ok true) (.ok 9 : Except String Nat)).state
        "k" 5 (.ok false) (.ok 777 : Except String Nat)).result = .ok 9 ∧
    (cacGet 10 100
        (cacGet 10 100 (⟨[("k", ⟨5, 100⟩)], []⟩ : CACState Nat) "k" 0
          (.ok true) (.ok 9 : Except String Nat)).state
        "k" 5 (.ok false) (.ok 777 : Except String Nat)).detectorCalls = 0 ∧
    (cacGet 10 100
        (cacGet 10 100 (⟨[("k", ⟨5, 100⟩)], []⟩ : CACState Nat) "k" 0
          (.ok true) (.ok 9 : Except String Nat)).state
        "k" 5 (.ok false) (.ok 777 : Except String Nat)).evictions = 0 ∧
    (cacGet 10 100
        (cacGet 10 100 (⟨[("k", ⟨5, 100⟩)], []⟩ : CACState Nat) "k" 0
          (.ok true) (.ok 9 : Except String Nat)).state
        "k" 5 (.ok false) (.ok 777 : Except String Nat)).dataFetches = 0 :=
  (cacGet_eviction_only_with_detector (T := Nat) (E := String) 10 100).2.2
    ⟨[("k", ⟨5, 100⟩)], []⟩ "k" 0 5 9 (.ok false) (.ok 777)
    (by decide) (by decide) (by decide)

/-!
## Reload cache and hash-verified entry cache — `CacheManager` of `src/mastra/lib/cache.ts`

One class owning a single `node-cache` store plus a JS `Map`
`hashCheckCache`.  The store holds collection values at plain keys
(written by `reload`) and `(value, digest)` pairs at `"<key>:data"` /
`"<key>:hash"` (written by `setWithHash`); we give it the value type
`T ⊕ String` (`Sum.inl` = a `T`, `Sum.inr` = a digest string).  The
`get<T>` casts of the source are unchecked, but each key shape is only
ever written with one variant, so reading with a variant match is exact.

`checkThrottleMs = checkPeriodSeconds * 1000` and `stdTTL = ttlSeconds`;
both appear below as abstract `throttle` and `ttl` parameters in the same
unit as `now`.

`reload` (lines 84–100) awaits `loadData()`, then **synchronously**
flushes the store and inserts every loaded entry, then awaits
`getChangeHash()` and records it as `lastHash`; any throw is logged and
rethrown.  `checkForChanges` (lines 102–130) throttles, records the check
time, awaits `getChangeHash()` and reloads when it differs from
`lastHash`; every throw is caught and swallowed there.  `get`/`getAll`
(lines 136–164) run `checkForChanges` first and then read the store
synchronously.  Since the runtime is cooperative, other readers can
observe the store only while one of these operations is suspended at an
`await`; `visibleCaches` below lists the store contents at exactly those
suspension points.
-/

/-- `HashCheckRecord` of `cache.ts` (lines 18–21). -/
structure HashCheckRecord where
  hash : String
  timestamp : Nat
  deriving DecidableEq

/-- The mutable state of a `cache.ts` `CacheManager`. -/
structure RCState (T : Type) where
  cache : NC (Sum T String)
  hashCheckCache : List (String × HashCheckRecord)
  isInitialized : Bool
  lastHash : Option String
  lastCheckTime : Nat
  deriving DecidableEq

/-- Read a data value (`Sum.inl`) from the store. -/
def rcGetData {T : Type} (c : NC (Sum T String)) (k : String) (now : Nat) :
    Option T :=
  match ncGet c k now with
  | some (.inl v) => some v
  | _ => none

/-- Read a digest string (`Sum.inr`) from the store. -/
def rcGetHash {T : Type} (c : NC (Sum T String)) (k : String) (now : Nat) :
    Option String :=
  match ncGet c k now with
  | some (.inr h) => some h
  | _ => none

/-- Outcome of one `getWithHash` call: returned (or thrown) result, state
afterwards, number of `getCurrentHash` calls, number of `reload` calls. -/
structure GWHResult (T E : Type) where
  result : Except E T
  state : RCState T
  digestCalls : Nat
  reloadCalls : Nat
  deriving DecidableEq

/-- `setWithHash` (lines 170–173): store the value at `"<key>:data"` and
the digest at `"<key>:hash"`, both with the instance's `stdTTL`. -/
def setWithHash {T : Type} (ttl : Nat) (st : RCState T) (key : String)
    (v : T) (hash : String) (now : Nat) : RCState T :=
  { st with
      cache := ncSet (ncSet st.cache (key ++ ":data") (.inl v) ttl now)
        (key ++ ":hash") (.inr hash) ttl now }

/-- Lines 211–217 of `getWithHash`: `reload()`, then `getCurrentHash()`,
then `setWithHash` and a fresh `hashCheckCache` record at `now2` (the
`Date.now()` of line 214).  A throw propagates and leaves the state as it
was on entry.  `digestCallsBefore` counts digest calls already made
earlier in the same `getWithHash` call. -/
def gwhReloadPath {T E : Type} (ttl : Nat) (st : RCState T) (key : String)
    (now2 : Nat) (reloadF : Except E T) (hash2 : Except E String)
    (digestCallsBefore : Nat) : GWHResult T E :=
  match reloadF with
  | .error e => ⟨.error e, st, digestCallsBefore, 1⟩
  | .ok newData =>
      match hash2 with
      | .error e => ⟨.error e, st, digestCallsBefore + 1, 1⟩
      | .ok newHash =>
          ⟨.ok newData,
            { setWithHash ttl st key newData newHash now2 with
                hashCheckCache :=
                  aset st.hashCheckCache key ⟨newHash, now2⟩ },
            digestCallsBefore + 1, 1⟩

/-- Lines 198–209 of `getWithHash`: the un-throttled verification of a
cached pair.  `getCurrentHash()` is awaited (oracle `hash1`); on success
the `hashCheckCache` record is set to `(currentHash, now)` **before** the
comparison; a throw propagates with the record untouched.  A matching
digest returns the cached value; a differing one falls through to the
reload path. -/
def gwhVerify {T E : Type} (ttl : Nat) (st : RCState T) (key : String)
    (now now2 : Nat) (cachedData : T) (cachedHash : String)
    (hash1 : Except E String) (reloadF : Except E T)
    (hash2 : Except E String) : GWHResult T E :=
  match hash1 with
  | .error e => ⟨.error e, st, 1, 0⟩
  | .ok currentHash =>
      let st1 := { st with
        hashCheckCache := aset st.hashCheckCache key ⟨currentHash, now⟩ }
      if currentHash = cachedHash then ⟨.ok cachedData, st1, 1, 0⟩
      else gwhReloadPath ttl st1 key now2 reloadF hash2 1

/-- `getWithHash` (lines 175–218).  `now` is `Date.now()` at entry (line
184), `now2` the one taken after a reload (line 214); `hash1`/`hash2` are
the outcomes of the first/second `getCurrentHash()` call, `reloadF` of the
`reload()` call — each consulted only if the corresponding call happens. -/
def getWithHash {T E : Type} (throttle ttl : Nat) (st : RCState T)
    (key : String) (now now2 : Nat) (hash1 : Except E String)
    (reloadF : Except E T) (hash2 : Except E String) : GWHResult T E :=
  match rcGetData st.cache (key ++ ":data") now,
      rcGetHash st.cache (key ++ ":hash") now with
  | some cachedData, some cachedHash =>
      match alookup st.hashCheckCache key with
      | some rec =>
          if now - rec.timestamp < throttle then ⟨.ok cachedData, st, 0, 0⟩
          else gwhVerify ttl st key now now2 cachedData cachedHash hash1
            reloadF hash2
      | none =>
          gwhVerify ttl st key now now2 cachedData cachedHash hash1
            reloadF hash2
  | _, _ => gwhReloadPath ttl st key now2 reloadF hash2 0

/-- The store contents `reload` produces from loaded `data`: `flushAll`
followed by one `set` per loaded entry (lines 88–92), all between two
`await`s, hence in one atomic step. -/
def collCache {T : Type} (data : List (String × T)) (ttl now : Nat) :
    NC (Sum T String) :=
  data.foldl (fun acc p => ncSet acc p.1 (.inl p.2) ttl now) ncEmpty

/-- Outcome of `reload` (lines 84–100): `err` is the exception it rethrew
(if any), `state` the state it left behind, `visibleCaches` the store
contents another reader could observe while it was suspended (at
`await loadData()` and at `await getChangeHash()`). -/
structure RCReloadResult (T E : Type) where
  err : Option E
  state : RCState T
  visibleCaches : List (NC (Sum T String))
  deriving DecidableEq

/-- `reload` (lines 84–100).  `load` is the outcome of `loadData()`,
`hashR` of the trailing `getChangeHash()`.  The flush-and-refill runs
synchronously after `loadData` resolves; `lastHash` is recorded only when
the trailing digest call succeeds. -/
def rcReload {T E : Type} (ttl : Nat) (st : RCState T) (now : Nat)
    (load : Except E (List (String × T))) (hashR : Except E String) :
    RCReloadResult T E :=
  match load with
  | .error e => ⟨some e, st, [st.cache]⟩
  | .ok data =>
      let st1 := { st with cache := collCache data ttl now }
      match hashR with
      | .error e => ⟨some e, st1, [st.cache, st1.cache]⟩
      | .ok h => ⟨none, { st1 with lastHash := some h }, [st.cache, st1.cache]⟩

/-- `checkForChanges` (lines 102–130): throttle on `lastCheckTime`; when
due, record the check time, await `getChangeHash()` (oracle `hash1`) and
reload when it differs from `lastHash`.  Every exception of the digest
call or of the triggered reload is caught and swallowed here (lines
127–129).  Also returns the store contents visible at each `await`. -/
def rcCheckForChanges {T E : Type} (throttle ttl : Nat) (st : RCState T)
    (now : Nat) (hash1 : Except E String)
    (load : Except E (List (String × T))) (hash2 : Except E String) :
    RCState T × List (NC (Sum T String)) :=
  if now - st.lastCheckTime < throttle then (st, [])
  else
    let st1 := { st with lastCheckTime := now }
    match hash1 with
    | .error _ => (st1, [st.cache])
    | .ok currentHash =>
        if st.lastHash = some currentHash then (st1, [st.cache])
        else
          let r := rcReload ttl st1 now load hash2
          (r.state, st.cache :: r.visibleCaches)

/-- `get` (lines 136–148): `checkForChanges` first, then one synchronous
store read (`?? null` modelled by `Option`). -/
def rcGet {T E : Type} (throttle ttl : Nat) (st : RCState T) (key : String)
    (now : Nat) (hash1 : Except E String)
    (load : Except E (List (String × T))) (hash2 : Except E String) :
    Option (Sum T String) × RCState T :=
  let r := rcCheckForChanges throttle ttl st now hash1 load hash2
  (ncGet r.1.cache key now, r.1)

/-- The synchronous read loop of `getAll` (lines 153–163): enumerate the
store's keys and collect every still-defined value. -/
def rcGetAllPure {T : Type} (c : NC (Sum T String)) (now : Nat) :
    List (String × Sum T String) :=
  (ncKeys c).filterMap (fun k => (ncGet c k now).map (fun v => (k, v)))

/-- `getAll` (lines 150–164): `checkForChanges` first, then the
synchronous collection of all live entries. -/
def rcGetAll {T E : Type} (throttle ttl : Nat) (st : RCState T) (now : Nat)
    (hash1 : Except E String) (load : Except E (List (String × T)))
    (hash2 : Except E String) :
    List (String × Sum T String) × RCState T :=
  let r := rcCheckForChanges throttle ttl st now hash1 load hash2
  (rcGetAllPure r.1.cache now, r.1)

/-- C1. For every key that has a cached `(value, digest)` pair in the
hash-verified entry cache, if the time elapsed since that key's last
recorded verification is strictly less than the throttle window, then
`getWithHash(key, getCurrentDigest, reload)` returns the cached value and
calls neither `getCurrentDigest` nor `reload` — and leaves the state
untouched. -/
theorem getWithHash_throttled_hit {T E : Type} (throttle ttl : Nat)
    (st : RCState T) (key : String) (now now2 : Nat)
    (hash1 : Except E String) (reloadF : Except E T)
    (hash2 : Except E String) (v : T) (h : String) (rec : HashCheckRecord)
    (hdata : rcGetData st.cache (key ++ ":data") now = some v)
    (hhash : rcGetHash st.cache (key ++ ":hash") now = some h)
    (hrec : alookup st.hashCheckCache key = some rec)
    (hthrottle : now - rec.timestamp < throttle) :
    getWithHash throttle ttl st key now now2 hash1 reloadF hash2 =
      ⟨.ok v, st, 0, 0⟩ := by
  simp [getWithHash, hdata, hhash, hrec, hthrottle]

/-- Witness for C1: key `"k"` holds the pair `(7, "h1")`, its verification
record is 100 time units old against a 500-unit throttle; all three
oracles are set to throw, so the conclusion also shows no external call
can have been consulted. -/
theorem getWithHash_throttled_hit_witness :
    rcGetData
      ([("k:data", ⟨.inl 7, 0⟩), ("k:hash", ⟨.inr "h1", 0⟩)] :
        NC (Sum Nat String)) "k:data" 1000 = some 7 ∧
    getWithHash 500 3600
      (⟨[("k:data", ⟨.inl 7, 0⟩), ("k:hash", ⟨.inr "h1", 0⟩)],
        [("k", ⟨"h1", 900⟩)], true, none, 0⟩ : RCState Nat) "k" 1000 1200
      (.error "digest call") (.error "reload call") (.error "digest call") =
      ⟨.ok 7,
        ⟨[("k:data", ⟨.inl 7, 0⟩), ("k:hash", ⟨.inr "h1", 0⟩)],
          [("k", ⟨"h1", 900⟩)], true, none, 0⟩, 0, 0⟩ :=
  ⟨by decide,
    getWithHash_throttled_hit 500 3600 _ "k" 1000 1200 _ _ _ 7 "h1"
      ⟨"h1", 900⟩ (by decide) (by decide) (by decide) (by decide)⟩

/-- C5, counterexample. The claim says the verification timestamp is
recorded even when `getCurrentDigest` fails.  At this concrete input a
cached pair for `"k"` exists, no throttle record exists (so the digest
function is called), and `getCurrentDigest` throws: the digest call
happens (`digestCalls = 1`) yet the `hashCheckCache` still has **no**
record for `"k"` — line 199 of `cache.ts` runs only after the `await` of
line 198 resolves, so a rejection skips it. -/
theorem getWithHash_digest_failure_no_timestamp_cex :
    (getWithHash 500 3600
        (⟨[("k:data", ⟨.inl 7, 0⟩), ("k:hash", ⟨.inr "h1", 0⟩)], [],
          true, none, 0⟩ : RCState Nat) "k" 1000 1200
        (.error "digest down") (.ok 8) (.ok "h2")).digestCalls = 1 ∧
    alookup (getWithHash 500 3600
        (⟨[("k:data", ⟨.inl 7, 0⟩), ("k:hash", ⟨.inr "h1", 0⟩)], [],
          true, none, 0⟩ : RCState Nat) "k" 1000 1200
        (.error "digest down") (.ok 8) (.ok "h2")).state.hashCheckCache
      "k" = none ∧
    (getWithHash 500 3600
        (⟨[("k:data", ⟨.inl 7, 0⟩), ("k:hash", ⟨.inr "h1", 0⟩)], [],
          true, none, 0⟩ : RCState Nat) "k" 1000 1200
        (.error "digest down") (.ok 8) (.ok "h2")).result =
      .error "digest down" := by
  refine ⟨?_, ?_, ?_⟩ <;> decide

/-- C5, amended. In `getWithHash`, whenever a cached `(value, digest)`
pair exists and the throttle window has elapsed, the first
`getCurrentDigest` call is made; if it **succeeds**, a verification
timestamp is recorded (at `now`, or at `now2` when a digest change leads
to a successful reload) regardless of whether the digest matches; if it
throws, the exception propagates and no timestamp is recorded (see the
counterexample). -/
theorem getWithHash_digest_success_records_timestamp {T E : Type}
    (throttle ttl : Nat) (st : RCState T) (key : String) (now now2 : Nat)
    (ch : String) (reloadF : Except E T) (hash2 : Except E String)
    (v : T) (h : String)
    (hdata : rcGetData st.cache (key ++ ":data") now = some v)
    (hhash : rcGetHash st.cache (key ++ ":hash") now = some h)
    (helapsed : ∀ rec, alookup st.hashCheckCache key = some rec →
      throttle ≤ now - rec.timestamp) :
    ∃ rec, alookup (getWithHash throttle ttl st key now now2 (.ok ch)
        reloadF hash2).state.hashCheckCache key = some rec ∧
      (rec.timestamp = now ∨ rec.timestamp = now2) := by
  have hverify : ∃ rec,
      alookup (gwhVerify ttl st key now now2 v h (.ok ch) reloadF
          hash2).state.hashCheckCache key = some rec ∧
        (rec.timestamp = now ∨ rec.timestamp = now2) := by
    by_cases hch : ch = h
    · exact ⟨⟨ch, now⟩, by simp [gwhVerify, hch, alookup_aset], Or.inl rfl⟩
    · rcases reloadF with e | nv
      · exact ⟨⟨ch, now⟩,
          by simp [gwhVerify, hch, gwhReloadPath, alookup_aset], Or.inl rfl⟩
      · rcases hash2 with e | nh
        · exact ⟨⟨ch, now⟩,
            by simp [gwhVerify, hch, gwhReloadPath, alookup_aset],
            Or.inl rfl⟩
        · refine ⟨⟨nh, now2⟩, ?_, Or.inr rfl⟩
          simp [gwhVerify, hch, gwhReloadPath, setWithHash, alookup_aset]
  rcases hrec : alookup st.hashCheckCache key with _ | rec
  · simpa [getWithHash, hdata, hhash, hrec] using hverify
  · have hn : ¬ (now - rec.timestamp < throttle) := by
      have := helapsed rec hrec; omega
    simpa [getWithHash, hdata, hhash, hrec, hn] using hverify

/-- Witness for the amended C5: cached pair `(7, "h1")` for `"k"`, no
previous verification record, first digest call succeeding with a
differing digest `"h2"`, reload succeeding: the recorded timestamp is the
post-reload `now2 = 1200`. -/
theorem getWithHash_digest_success_records_timestamp_witness :
    ∃ rec, alookup ((getWithHash 500 3600
        (⟨[("k:data", ⟨.inl 7, 0⟩), ("k:hash", ⟨.inr "h1", 0⟩)], [],
          true, none, 0⟩ : RCState Nat) "k" 1000 1200
        (.ok "h2") (.ok 8) (.ok "h2" : Except String String)).state
          ).hashCheckCache "k" = some rec ∧
      (rec.timestamp = 1000 ∨ rec.timestamp = 1200) :=
  getWithHash_digest_success_records_timestamp 500 3600
    (⟨[("k:data", ⟨.inl 7, 0⟩), ("k:hash", ⟨.inr "h1", 0⟩)], [],
      true, none, 0⟩ : RCState Nat) "k" 1000 1200
    "h2" (.ok 8) (.ok "h2") 7 "h1" (by decide) (by decide)
    (fun rec hrec => by simp [alookup] at hrec)

/-- C3. The reload cache's collection swap is atomic with respect to
readers.  The store contents observable at any suspension point of
`checkForChanges` (and in its final state) — i.e. anywhere a concurrent
`getAll()` could run under the cooperative scheduler — are either exactly
the pre-call store or exactly the store produced in one step from a
successful `loadData`; consequently `getAll`'s synchronous read loop
returns either the fully-old or the fully-new collection, never a mix. -/
theorem rc_collection_swap_atomic {T E : Type} (throttle ttl : Nat)
    (st : RCState T) (now : Nat) (hash1 : Except E String)
    (load : Except E (List (String × T))) (hash2 : Except E String)
    (c : NC (Sum T String))
    (hmem : c ∈ (rcCheckForChanges throttle ttl st now hash1 load hash2).2 ++
      [(rcCheckForChanges throttle ttl st now hash1 load hash2).1.cache]) :
    (c = st.cache ∨
      ∃ data, load = .ok data ∧ c = collCache data ttl now) ∧
    (rcGetAllPure c now = rcGetAllPure st.cache now ∨
      ∃ data, load = .ok data ∧
        rcGetAllPure c now = rcGetAllPure (collCache data ttl now) now) := by
  have hc : c = st.cache ∨
      ∃ data, load = .ok data ∧ c = collCache data ttl now := by
    by_cases hthr : now - st.lastCheckTime < throttle
    · simp [rcCheckForChanges, hthr] at hmem
      exact Or.inl hmem
    · rcases hash1 with e | currentHash
      · simp [rcCheckForChanges, hthr] at hmem
        exact Or.inl hmem
      · by_cases hsame : st.lastHash = some currentHash
        · simp [rcCheckForChanges, hthr, hsame] at hmem
          exact Or.inl hmem
        · rcases load with e | data
          · simp [rcCheckForChanges, hthr, hsame, rcReload] at hmem
            exact Or.inl hmem
          · rcases hash2 with e | h
            · simp [rcCheckForChanges, hthr, hsame, rcReload] at hmem
              rcases hmem with hmem | hmem
              · exact Or.inl hmem
              · exact Or.inr ⟨data, rfl, hmem⟩
            · simp [rcCheckForChanges, hthr, hsame, rcReload] at hmem
              rcases hmem with hmem | hmem
              · exact Or.inl hmem
              · exact Or.inr ⟨data, rfl, hmem⟩
  refine ⟨hc, ?_⟩
  rcases hc with h | ⟨data, hl, h⟩
  · exact Or.inl (by rw [h])
  · exact Or.inr ⟨data, hl, by rw [h]⟩

/-- Witness for C3: un-throttled check, digest changed from `"h1"` to
`"h2"`, successful load of `{b ↦ 2}` over an old collection `{a ↦ 1}`;
the final store is the fully-new collection and is among the allowed
outcomes. -/
theorem rc_collection_swap_atomic_witness :
    ((rcCheckForChanges 1000 3600
          (⟨[("a", ⟨.inl 1, 0⟩)], [], true, some "h1", 0⟩ : RCState Nat)
          5000 (.ok "h2") (.ok [("b", 2)])
          (.ok "h2" : Except String String)).1.cache = [("a", ⟨.inl 1, 0⟩)] ∨
      ∃ data, (.ok [("b", 2)] : Except String (List (String × Nat))) =
          .ok data ∧
        (rcCheckForChanges 1000 3600
          (⟨[("a", ⟨.inl 1, 0⟩)], [], true, some "h1", 0⟩ : RCState Nat)
          5000 (.ok "h2") (.ok [("b", 2)])
          (.ok "h2" : Except String String)).1.cache =
          collCache data 3600 5000) ∧
    (rcGetAllPure ((rcCheckForChanges 1000 3600
          (⟨[("a", ⟨.inl 1, 0⟩)], [], true, some "h1", 0⟩ : RCState Nat)
          5000 (.ok "h2") (.ok [("b", 2)])
          (.ok "h2" : Except String String)).1.cache) 5000 =
        rcGetAllPure [("a", ⟨.inl 1, 0⟩)] 5000 ∨
      ∃ data, (.ok [("b", 2)] : Except String (List (String × Nat))) =
          .ok data ∧
        rcGetAllPure ((rcCheckForChanges 1000 3600
          (⟨[("a", ⟨.inl 1, 0⟩)], [], true, some "h1", 0⟩ : RCState Nat)
          5000 (.ok "h2") (.ok [("b", 2)])
          (.ok "h2" : Except String String)).1.cache) 5000 =
          rcGetAllPure (collCache data 3600 5000) 5000) :=
  rc_collection_swap_atomic 1000 3600
    (⟨[("a", ⟨.inl 1, 0⟩)], [], true, some "h1", 0⟩ : RCState Nat)
    5000 (.ok "h2") (.ok [("b", 2)]) (.ok "h2")
    ((rcCheckForChanges 1000 3600
      (⟨[("a", ⟨.inl 1, 0⟩)], [], true, some "h1", 0⟩ : RCState Nat)
      5000 (.ok "h2") (.ok [("b", 2)]) (.ok "h2")).1.cache)
    (by decide)

/-- C4, counterexample. The claim says: if the digest function (or the
reload it triggers) throws during an un-throttled change check inside
`get`/`getAll`, the existing in-memory collection is left unchanged.  At
this concrete input the check is un-throttled, the digest call succeeds
with a changed digest (`"h2"` vs stored `"h1"`), `loadData` succeeds with
`{a ↦ 2}` — and then the digest re-fetch **inside** `reload` (line 94 of
`cache.ts`) throws.  `reload` has already flushed and refilled the store,
so although the exception is swallowed, the collection is *not* left
unchanged: `a` now reads 2, where the old collection had 1. -/
theorem rc_reload_digest_failure_changes_collection_cex :
    (rcCheckForChanges 1000 3600
        (⟨[("a", ⟨.inl 1, 0⟩)], [], true, some "h1", 0⟩ : RCState Nat)
        5000 (.ok "h2") (.ok [("a", 2)])
        (.error "digest down" : Except String String)).1.cache ≠
      [("a", ⟨.inl 1, 0⟩)] ∧
    ncGet (rcCheckForChanges 1000 3600
        (⟨[("a", ⟨.inl 1, 0⟩)], [], true, some "h1", 0⟩ : RCState Nat)
        5000 (.ok "h2") (.ok [("a", 2)])
        (.error "digest down" : Except String String)).1.cache "a" 5000 =
      some (.inl 2) ∧
    ncGet [("a", (⟨.inl 1, 0⟩ : NCEntry (Sum Nat String)))] "a" 5000 =
      some (.inl 1) := by
  refine ⟨?_, ?_, ?_⟩ <;> decide

/-- C4, amended. A digest or load failure during an un-throttled
change check inside `get` is never propagated (the model's check returns a
plain state because `checkForChanges` catches everything, lines 127–129),
and: (a) if the digest check itself throws, or (b) if it reports a change
but `loadData` throws, the collection is left unchanged and the read is
served from it; (c) if `loadData` succeeds and the digest re-fetch inside
`reload` then throws, the exception is still swallowed but the collection
has already been replaced by the complete fresh load (with `lastHash` not
updated), and the read is served from the new collection. -/
theorem rcGet_check_failure_swallowed {T E : Type} (throttle ttl : Nat)
    (st : RCState T) (key : String) (now : Nat)
    (hunthrottled : ¬ (now - st.lastCheckTime < throttle)) :
    (∀ (e : E) (load : Except E (List (String × T)))
        (hash2 : Except E String),
        rcGet throttle ttl st key now (.error e) load hash2 =
          (ncGet st.cache key now, { st with lastCheckTime := now })) ∧
    (∀ (h : String), st.lastHash ≠ some h → ∀ (e : E)
        (hash2 : Except E String),
        rcGet throttle ttl st key now (.ok h) (.error e) hash2 =
          (ncGet st.cache key now, { st with lastCheckTime := now })) ∧
    (∀ (h : String), st.lastHash ≠ some h →
        ∀ (data : List (String × T)) (e : E),
        rcGet throttle ttl st key now (.ok h) (.ok data) (.error e) =
          (ncGet (collCache data ttl now) key now,
            { st with
                lastCheckTime := now
                cache := collCache data ttl now })) := by
  refine ⟨?_, ?_, ?_⟩
  · intro e load hash2
    simp [rcGet, rcCheckForChanges, hunthrottled]
  · intro h hne e hash2
    simp [rcGet, rcCheckForChanges, hunthrottled, hne, rcReload]
  · intro h hne data e
    simp [rcGet, rcCheckForChanges, hunthrottled, hne, rcReload]

/-- Witness for the amended C4, exercising clause (a): un-throttled check
whose digest call throws; the read is served from the untouched old
collection. -/
theorem rcGet_check_failure_swallowed_witness :
    rcGet 1000 3600
      (⟨[("a", ⟨.inl 1, 0⟩)], [], true, some "h1", 0⟩ : RCState Nat)
      "a" 5000 (.error "digest down") (.ok [("a", 2)])
      (.ok "h2" : Except String String) =
      (some (.inl 1),
        ⟨[("a", ⟨.inl 1, 0⟩)], [], true, some "h1", 5000⟩) :=
  (rcGet_check_failure_swallowed 1000 3600
      (⟨[("a", ⟨.inl 1, 0⟩)], [], true, some "h1", 0⟩ : RCState Nat)
      "a" 5000 (by decide)).1 "digest down" (.ok [("a", 2)]) (.ok "h2")

/-!
## `ChangeAwareCache` construction and its configurations

The constructor of `change-aware-cache.ts` (lines 27–88) destructures its
options with defaults `checkInterval = 10`, `dataCacheTtl = 3600`,
`cacheName = 'ChangeAwareCache'`, `enableLogging = true`, and builds the
two tiers; it performs **no validation** relating `checkInterval` to
`dataCacheTtl`.  The repository constructs four instances; each TTL
environment variable is modelled as `Option Nat` (the parsed value, or
`none` when unset, in which case `parseInt(env ?? 'd', 10)` yields the
literal default).
-/

/-- The configuration a `ChangeAwareCache` constructor resolves from its
options (`change-aware-cache.ts` lines 31–37). -/
structure ChangeAwareCacheConfig where
  checkInterval : Nat
  dataCacheTtl : Nat
  cacheName : String
  enableLogging : Bool
  deriving DecidableEq

/-- Option destructuring of the `ChangeAwareCache` constructor: any
combination of option values yields a constructed instance. -/
def mkChangeAwareCacheConfig (checkInterval0 dataCacheTtl0 : Option Nat)
    (cacheName0 : Option String) (enableLogging0 : Option Bool) :
    ChangeAwareCacheConfig :=
  ⟨checkInterval0.getD 10, dataCacheTtl0.getD 3600,
    cacheName0.getD "ChangeAwareCache", enableLogging0.getD true⟩

/-- `agentCache` of `src/mastra/services/agent-config.ts` (lines 574–595):
`checkInterval = parseInt(SUB_AGENT_CACHE_TTL ?? '300')`,
`dataCacheTtl = parseInt(SUB_AGENT_DATA_TTL ?? '86400')`. -/
def agentCacheConfig (subAgentCacheTtl subAgentDataTtl : Option Nat) :
    ChangeAwareCacheConfig :=
  mkChangeAwareCacheConfig (some (subAgentCacheTtl.getD 300))
    (some (subAgentDataTtl.getD 86400)) (some "AgentCache") none

/-- `mcpServersCache` of `src/mastra/services/mcp-config.ts` (lines
15–23): `checkInterval = parseInt(MCP_CACHE_TTL ?? '300')`,
`dataCacheTtl = parseInt(MCP_DATA_TTL ?? '86400')`. -/
def mcpServersCacheConfig (mcpCacheTtl mcpDataTtl : Option Nat) :
    ChangeAwareCacheConfig :=
  mkChangeAwareCacheConfig (some (mcpCacheTtl.getD 300))
    (some (mcpDataTtl.getD 86400)) (some "McpServersCache") none

/-- `agentConfigCache` of the agent bootstrap module (first variant):
`checkInterval = parseInt(AGENT_CONFIG_CACHE_TTL ?? '10')`,
`dataCacheTtl = 3600`, logging disabled in production. -/
def agentConfigCacheConfigV1 (mainAgentName : Option String)
    (agentConfigCacheTtl : Option Nat) (isProduction : Bool) :
    ChangeAwareCacheConfig :=
  mkChangeAwareCacheConfig (some (agentConfigCacheTtl.getD 10)) (some 3600)
    (some ("AgentConfigCache:" ++ mainAgentName.getD "main-agent"))
    (some (!isProduction))

/-- `agentConfigCache` of the agent bootstrap module (second variant):
`checkInterval = parseInt(AGENT_CONFIG_CACHE_TTL ?? '10')`,
`dataCacheTtl = parseInt(AGENT_CONFIG_DATA_TTL ?? '86400')`. -/
def agentConfigCacheConfigV2 (mainAgentName : Option String)
    (agentConfigCacheTtl agentConfigDataTtl : Option Nat) :
    ChangeAwareCacheConfig :=
  mkChangeAwareCacheConfig (some (agentConfigCacheTtl.getD 10))
    (some (agentConfigDataTtl.getD 86400))
    (some ("AgentConfigCache:" ++ mainAgentName.getD "main-agent")) none

/-- C8, counterexample. The claim says every constructible
change-gated cache instance has `checkInterval < dataCacheTtl`.  The
constructor enforces nothing: the options `checkInterval = 100`,
`dataCacheTtl = 50` construct an instance whose probe TTL is **not**
strictly shorter than its data TTL. -/
theorem changeAware_ttl_invariant_not_enforced_cex :
    ¬ ((mkChangeAwareCacheConfig (some 100) (some 50) none
          none).checkInterval <
        (mkChangeAwareCacheConfig (some 100) (some 50) none
          none).dataCacheTtl) := by
  decide

/-- C8, amended. The constructor does not enforce
`checkInterval < dataCacheTtl` (see the counterexample); however, the
constructor's own defaults and every instance the repository constructs —
`agentCache`, `mcpServersCache` and both `agentConfigCache` variants —
satisfy the strict inequality when the corresponding TTL environment
variables are unset. -/
theorem changeAware_repo_instances_satisfy_ttl_invariant :
    (mkChangeAwareCacheConfig none none none none).checkInterval <
      (mkChangeAwareCacheConfig none none none none).dataCacheTtl ∧
    (agentCacheConfig none none).checkInterval <
      (agentCacheConfig none none).dataCacheTtl ∧
    (mcpServersCacheConfig none none).checkInterval <
      (mcpServersCacheConfig none none).dataCacheTtl ∧
    (agentConfigCacheConfigV1 none none false).checkInterval <
      (agentConfigCacheConfigV1 none none false).dataCacheTtl ∧
    (agentConfigCacheConfigV2 none none none).checkInterval <
      (agentConfigCacheConfigV2 none none none).dataCacheTtl := by
  refine ⟨?_, ?_, ?_, ?_, ?_⟩ <;> decide

/-!
## Guarded collection materialization — `agentManager.loadData` of `src/mastra/services/agent-manager.ts`

`loadData` (lines 257–288) iterates the fetched agent rows; each
`createAgentInstance` call sits in its own `try`/`catch`: on success the
agent is `Map#set` into the collection, on failure the error is logged and
the row skipped, and the loop continues.  `builds` pairs each row's id
with the outcome its `createAgentInstance` call would have.
-/

/-- The per-row guarded build loop of `agentManager.loadData`. -/
def loadAgentsData {A E : Type} (builds : List (String × Except E A)) :
    List (String × A) :=
  builds.foldl
    (fun acc p =>
      match p.2 with
      | .ok agent => aset acc p.1 agent
      | .error _ => acc)
    []

/-- The successful rows only, in order. -/
def successfulBuilds {A E : Type} (builds : List (String × Except E A)) :
    List (String × A) :=
  builds.filterMap
    (fun p =>
      match p.2 with
      | .ok agent => some (p.1, agent)
      | .error _ => none)

theorem loadAgentsData_foldl_filterMap {A E : Type}
    (builds : List (String × Except E A)) (acc : List (String × A)) :
    builds.foldl
        (fun acc p =>
          match p.2 with
          | .ok agent => aset acc p.1 agent
          | .error _ => acc)
        acc =
      (successfulBuilds builds).foldl (fun acc p => aset acc p.1 p.2) acc := by
  induction builds generalizing acc with
  | nil => simp [successfulBuilds]
  | cons p rest ih =>
      obtain ⟨id, r⟩ := p
      rcases r with e | agent <;>
        simp [successfulBuilds, List.filterMap_cons, ih]

theorem alookup_isSome_foldl_aset {A E : Type}
    (builds : List (String × Except E A)) (acc : List (String × A))
    (id : String) (hsome : (alookup acc id).isSome) :
    (alookup
        (builds.foldl
          (fun acc p =>
            match p.2 with
            | .ok agent => aset acc p.1 agent
            | .error _ => acc)
          acc)
        id).isSome := by
  induction builds generalizing acc with
  | nil => simpa using hsome
  | cons p rest ih =>
      obtain ⟨pid, r⟩ := p
      rcases r with e | agent
      · simpa using ih acc hsome
      · refine ih (aset acc pid agent) ?_
        rw [alookup_aset]
        by_cases h : id = pid <;> simp [h, hsome]

theorem mem_ok_alookup_isSome_foldl {A E : Type}
    (builds : List (String × Except E A)) (acc : List (String × A))
    (id : String) (agent : A) (hmem : (id, .ok agent) ∈ builds) :
    (alookup
        (builds.foldl
          (fun acc p =>
            match p.2 with
            | .ok agent => aset acc p.1 agent
            | .error _ => acc)
          acc)
        id).isSome := by
  induction builds generalizing acc with
  | nil => simp at hmem
  | cons p rest ih =>
      obtain ⟨pid, r⟩ := p
      rcases List.mem_cons.mp hmem with heq | hrest
      · obtain ⟨h1, h2⟩ := Prod.mk.injEq .. ▸ heq
        subst h1 h2
        simp only [List.foldl_cons]
        exact alookup_isSome_foldl_aset rest (aset acc id agent) id
          (by simp [alookup_aset])
      · rcases r with e | agent2 <;>
          simpa using ih _ hrest

/-- C9. During collection materialization, a build failure of one
agent is caught and that agent skipped, while every agent whose build
succeeds is still placed in the resulting collection: (1) the loop's
result is exactly the one obtained by inserting the successful rows in
order — failed rows have no effect whatsoever (no abort, no emptying);
(2) every id whose build succeeded is present in the resulting
collection. -/
theorem loadAgentsData_skips_failures_keeps_successes {A E : Type}
    (builds : List (String × Except E A)) :
    loadAgentsData builds =
      (successfulBuilds builds).foldl (fun acc p => aset acc p.1 p.2) [] ∧
    (∀ (id : String) (agent : A), (id, .ok agent) ∈ builds →
      (alookup (loadAgentsData builds) id).isSome) := by
  constructor
  · exact loadAgentsData_foldl_filterMap builds []
  · intro id agent hmem
    exact mem_ok_alookup_isSome_foldl builds [] id agent hmem

/-- Witness for C9: three rows of which the middle build fails; the
result equals the insertion of the two successful rows, and the
successfully-built id `"a"` is present. -/
theorem loadAgentsData_skips_failures_keeps_successes_witness :
    loadAgentsData
      ([("a", .ok 1), ("b", .error "bad"), ("c", .ok 3)] :
        List (String × Except String Nat)) =
      (successfulBuilds
        ([("a", .ok 1), ("b", .error "bad"), ("c", .ok 3)] :
          List (String × Except String Nat))).foldl
        (fun acc p => aset acc p.1 p.2) [] ∧
    (alookup
        (loadAgentsData
          ([("a", .ok 1), ("b", .error "bad"), ("c", .ok 3)] :
            List (String × Except String Nat)))
        "a").isSome :=
  ⟨(loadAgentsData_skips_failures_keeps_successes
      [("a", .ok 1), ("b", .error "bad"), ("c", .ok 3)]).1,
    (loadAgentsData_skips_failures_keeps_successes
      [("a", .ok 1), ("b", .error "bad"), ("c", .ok 3)]).2 "a" 1
      (by decide)⟩
